import Mathlib

/-!
Verification of the core logic of `streamlit_app.py` (a Streamlit app that
displays trending YouTube videos with search/category/view-count filtering
and a YAML-backed credential store with an admin management panel).

The Python source is shallowly embedded below:
* pure helpers (`format_duration`, `format_number`, `filter_videos`) become
  Lean functions over `Nat`/`String`/`List`;
* the in-place mutation of the credentials mapping in `admin_page` becomes
  explicit state passing (`Config α → Config α × Except AdminActionError Unit`);
* the network-facing `fetch_popular_videos` becomes a function of the
  provider call's outcome; Python exceptions that can escape it are made
  explicit in an `Except PyExn` result.

Machine integers are modelled as unbounded `Nat` (Python integers are
unbounded).  CPython's float division `n/1000` and `%.1f` formatting are
modelled exactly over `ℚ`: the correctly rounded (round half to even)
binary64 value of the quotient, then the correctly rounded one-decimal
rendering of that value (half-to-even at exact ties), with an unbounded
exponent range (faithful for all inputs far below the binary64 overflow
threshold of about 1.8e308 times the divisor).
-/

namespace YT

/-! ### Decimal rendering of natural numbers (Python `str(n)` for `n ≥ 0`) -/

/-- The character for a single decimal digit value. -/
def digitChar (d : ℕ) : Char := Char.ofNat (48 + d)

/-- Little-endian list of decimal digit characters of `n` (empty for 0). -/
def digitsLE (n : ℕ) : List Char :=
  if h : n = 0 then [] else digitChar (n % 10) :: digitsLE (n / 10)
  decreasing_by exact Nat.div_lt_self (Nat.pos_of_ne_zero h) (by decide)

/-- Python `str(n)` for a non-negative integer: plain decimal notation. -/
def decimalString (n : ℕ) : String :=
  if n = 0 then "0" else ⟨(digitsLE n).reverse⟩

/-! ### `format_duration` (lines 132-147)

```python
time_match = re.match(r'PT(?:H(\d+)H)?(?:M(\d+)M)?(?:S(\d+)S)?', duration_str)
if not time_match:
    return "0:00"
hours = int(time_match.group(1)) if time_match.group(1) else 0
...
if hours > 0:
    return f"{hours}:{minutes:02d}:{seconds:02d}"
else:
    return f"{minutes}:{seconds:02d}"
```

Note the regex literally requires the unit letter BOTH before and after the
digit run (`H(\d+)H`, not the ISO-8601 `(\d+)H`).  `re.match` anchors at the
start only, and all three groups are optional, so the match succeeds exactly
when the input starts with "PT"; each optional group matches greedily at the
current position or is skipped.  Since a digit run followed by anything but
the closing unit letter fails every backtracking alternative, each group is
deterministic: it matches iff the input continues with the letter, a
non-empty digit run, and the letter again. -/

/-- Numeric value of a non-empty decimal digit-character run (Python `int`). -/
def digitsVal (ds : List Char) : ℕ :=
  ds.foldl (fun a c => 10 * a + (c.toNat - 48)) 0

/-- One optional regex group `(?:T(\d+)T)?` for unit letter `tag`, applied at
the current position: returns the captured value (if the group matched) and
the rest of the input. -/
def matchGroup (tag : Char) (s : List Char) : Option ℕ × List Char :=
  match s with
  | [] => (none, s)
  | c :: rest =>
    if c = tag then
      let ds := rest.takeWhile (·.isDigit)
      let rest' := rest.dropWhile (·.isDigit)
      match ds, rest' with
      | [], _ => (none, s)
      | _ :: _, c2 :: rest'' => if c2 = tag then (some (digitsVal ds), rest'') else (none, s)
      | _ :: _, [] => (none, s)
    else (none, s)

/-- Zero-pad to two digits: Python `f"{n:02d}"` for `n ≥ 0`. -/
def pad2 (n : ℕ) : String :=
  if n < 10 then "0" ++ decimalString n else decimalString n

/-- `format_duration` from the source, including its (buggy) regex. -/
def format_duration (duration_str : String) : String :=
  match duration_str.data with
  | 'P' :: 'T' :: rest =>
    let (h, r1) := matchGroup 'H' rest
    let (m, r2) := matchGroup 'M' r1
    let (s, _) := matchGroup 'S' r2
    let hours := h.getD 0
    let minutes := m.getD 0
    let seconds := s.getD 0
    if hours > 0 then
      decimalString hours ++ ":" ++ pad2 minutes ++ ":" ++ pad2 seconds
    else
      decimalString minutes ++ ":" ++ pad2 seconds
  | _ => "0:00"

/-! ### `format_number` (lines 184-190) and its float pipeline

```python
if number >= 10000:
    return f"{number/10000:.1f}만"
elif number >= 1000:
    return f"{number/1000:.1f}천"
else:
    return str(number)
```
-/

/-- Round a rational to the nearest integer, ties to even
(IEEE-754 default rounding, also used by CPython's float repr/formatting). -/
def rhe (q : ℚ) : ℤ :=
  let f := q.floor
  if q - (f : ℚ) < 1 / 2 then f
  else if 1 / 2 < q - (f : ℚ) then f + 1
  else if f % 2 = 0 then f else f + 1

/-- CPython `a / b` on non-negative integers with `1 ≤ b ≤ a`: the binary64
value nearest the exact quotient (round half to even), as an exact rational.
The exponent range is unbounded, which is faithful for every quotient below
the binary64 overflow threshold (≈ 1.8e308). -/
def pyDiv (a b : ℕ) : ℚ :=
  if a = 0 ∨ b = 0 then 0
  else
    let q : ℚ := (a : ℚ) / (b : ℚ)
    let e : ℕ := Nat.log2 (a / b)
    let m : ℤ := rhe (q * 2 ^ 52 / 2 ^ e)
    (m : ℚ) * 2 ^ e / 2 ^ 52

/-- CPython `f"{x:.1f}"` for a non-negative binary64 value `x ≥ 1`:
the correctly rounded one-decimal rendering (ties to even) of the exact
rational value of the float. -/
def formatOneDec (x : ℚ) : String :=
  let t : ℕ := (rhe (10 * x)).toNat
  decimalString (t / 10) ++ "." ++ decimalString (t % 10)

/-- `format_number` from the source: counts ≥ 10000 are shown in units of
ten thousand ("만"), counts ≥ 1000 in units of a thousand ("천"), smaller
counts as the plain integer. -/
def format_number (number : ℕ) : String :=
  if 10000 ≤ number then formatOneDec (pyDiv number 10000) ++ "만"
  else if 1000 ≤ number then formatOneDec (pyDiv number 1000) ++ "천"
  else decimalString number

/-! ### Video records and `filter_videos` (lines 225-237 and 282-303) -/

/-- A video record as constructed by `fetch_popular_videos` (lines 225-237).
All keys are always present on a constructed record. -/
structure Video where
  id : String
  title : String
  channel : String
  thumbnail : String
  view_count : ℕ
  like_count : ℕ
  comment_count : ℕ
  duration : String
  published_at : String
  url : String
  category_id : String
  deriving DecidableEq, Repr

/-- Python's substring test `needle in hay` on strings, as lists of
characters: some tail of `hay` starts with `needle`. -/
def substrB (needle : List Char) : List Char → Bool
  | [] => needle.isPrefixOf []
  | c :: rest => needle.isPrefixOf (c :: rest) || substrB needle rest

/-- Lowercasing, modelling Python `str.lower` (on ASCII letters). -/
def lower (s : String) : String := s.toLower

/-- `filter_videos` from the source: three successive list comprehensions,
each guarded by the truthiness of its criterion.  A non-empty tuple is
always truthy in Python, so the `if view_count_range:` guard always holds
and the inclusive range check is always applied. -/
def filter_videos (videos : List Video) (search_query : String)
    (selected_categories : List String) (view_count_range : ℕ × ℕ) : List Video :=
  let f1 :=
    if search_query ≠ "" then
      videos.filter (fun v =>
        substrB (lower search_query).data (lower v.title).data ||
        substrB (lower search_query).data (lower v.channel).data)
    else videos
  let f2 :=
    if selected_categories ≠ [] then
      f1.filter (fun v => selected_categories.contains v.category_id)
    else f1
  f2.filter (fun v =>
    decide (view_count_range.1 ≤ v.view_count) && decide (v.view_count ≤ view_count_range.2))

/-! ### The view-count slider of `main` (lines 332-340)

```python
view_count_range = st.sidebar.slider(
    "조회수 범위 선택 (만 회)",
    0, 10000,      # bounds of the control, in ten-thousands
    (0, 1000),     # default, in ten-thousands
    step=10, format="%d만")
view_count_range = (view_count_range[0] * 10000, view_count_range[1] * 10000)
```
-/

/-- Minimum bound of the slider control (in ten-thousand units). -/
def slider_lo : ℕ := 0

/-- Maximum bound of the slider control (in ten-thousand units). -/
def slider_hi : ℕ := 10000

/-- Default value of the slider control (in ten-thousand units). -/
def slider_default : ℕ × ℕ := (0, 1000)

/-- Conversion of a slider pair from ten-thousand units to raw view counts. -/
def scale_range (p : ℕ × ℕ) : ℕ × ℕ := (p.1 * 10000, p.2 * 10000)

/-- The view-count range the main page passes to `filter_videos` by default. -/
def default_view_count_range : ℕ × ℕ := scale_range slider_default

/-- The widest view-count range the control can express, scaled the same way. -/
def widest_view_count_range : ℕ × ℕ := scale_range (slider_lo, slider_hi)

/-! ### Credential store operations of `admin_page` (lines 416-470)

The YAML config is loaded, `config['credentials']['usernames']` (a dict,
unique keys, insertion-ordered) is mutated in place, and the WHOLE config
object is dumped back to the file.  The mapping is embedded as an
association list; everything in the config outside the usernames mapping
is an opaque `rest` component carried through unchanged. -/

/-- One value of `config['credentials']['usernames']`: the dict
`{'email': ..., 'name': ..., 'password': ..., 'role': ...}`. -/
structure UserRec where
  email : String
  name : String
  password : String
  role : String
  deriving DecidableEq, Repr

/-- The loaded (and re-dumped) YAML config: the usernames mapping plus
everything else in the file (cookie settings, preauthorized list, ...),
opaque to the admin operations. -/
structure Config (α : Type) where
  usernames : List (String × UserRec)
  rest : α
  deriving DecidableEq, Repr

/-- How a user-management button press can fail (each case is a distinct
`st.error` message in the source, except `keyError`, which is the exception
Python's `del users[username]` raises on a missing key). -/
inductive AdminActionError where
  | protectedAccount
  | duplicateUser
  | emptyFields
  | keyError
  deriving DecidableEq, Repr

/-- The delete-user button handler (lines 434-442): refuses the reserved
"admin" key, otherwise `del users[username]` and the config is dumped.
Returns the config as persisted alongside the outcome; on failure the
config is returned unchanged (the source neither mutates nor dumps then).
The requesting user's role is not an input: the handler never consults it. -/
def delete_user (cfg : Config α) (username : String) :
    Config α × Except AdminActionError Unit :=
  if username ≠ "admin" then
    match cfg.usernames.lookup username with
    | some _ =>
      ({ cfg with usernames := cfg.usernames.eraseP (fun p => p.1 == username) }, .ok ())
    | none => (cfg, .error .keyError)
  else (cfg, .error .protectedAccount)

/-- The add-user form handler (lines 453-470): requires all four text fields
non-empty (Python truthiness), then refuses a username already present,
otherwise inserts the new record (bcrypt hashing is abstracted as the
`hash` argument: its salt is random, but the handler only stores its
output) and the config is dumped.  On failure the config is unchanged. -/
def add_user (cfg : Config α)
    (new_username new_name new_email new_password new_role : String)
    (hash : String → String) : Config α × Except AdminActionError Unit :=
  if new_username ≠ "" ∧ new_name ≠ "" ∧ new_email ≠ "" ∧ new_password ≠ "" then
    if (cfg.usernames.lookup new_username).isNone then
      ({ cfg with
          usernames := cfg.usernames ++
            [(new_username,
              { email := new_email, name := new_name,
                password := hash new_password, role := new_role })] }, .ok ())
    else (cfg, .error .duplicateUser)
  else (cfg, .error .emptyFields)

/-! ### `fetch_popular_videos` (lines 193-260)

The provider call (`youtube.videos().list(...).execute()`) either yields a
response with a list of items, raises `HttpError`, or raises some other
exception; the function body is embedded as a function of that outcome.
Output: the returned video list together with the list of sidebar
(diagnostic-channel) messages; the function writes to no other channel.
`Except PyExn` makes explicit the exceptions that can still escape: inside
the `except HttpError` handler, `json.loads(e.content)` raises on a body
that is not valid JSON, and `.get(...)` raises `AttributeError` when the
parsed body (or its "error" member) is not a dict — an exception raised
inside an `except` clause is not caught by the sibling `except Exception`. -/

/-- A parsed JSON value (the result of `json.loads`). -/
inductive JVal where
  | str (s : String)
  | num (n : ℤ)
  | obj (fields : List (String × JVal))
  | arr (elems : List JVal)

/-- Python `str()` of a JSON value as far as the sidebar messages need it
(only scalar payloads are rendered in full). -/
def jStr : JVal → String
  | .str s => s
  | .num n => toString n
  | .obj _ => "{...}"
  | .arr _ => "[...]"

/-- An exception type escaping `fetch_popular_videos`. -/
inductive PyExn where
  | jsonDecodeError
  | attributeError
  deriving DecidableEq, Repr

/-- Python `d.get(key, default)` on a parsed JSON value: `AttributeError`
unless the value is a dict. -/
def dict_get (j : JVal) (key : String) (dflt : JVal) : Except PyExn JVal :=
  match j with
  | .obj fields => .ok ((fields.lookup key).getD dflt)
  | _ => .error .attributeError

/-- One thumbnail entry (`{'url': ...}`). -/
structure Thumb where
  url : String
  deriving DecidableEq, Repr

/-- The `snippet` dict of a provider item; every key is optional. -/
structure Snippet where
  title : Option String
  channelTitle : Option String
  thumbnails : Option (List (String × Thumb))
  publishedAt : Option String
  categoryId : Option String
  deriving DecidableEq, Repr

/-- The `statistics` dict of a provider item (counts as parsed by `int`). -/
structure Stats where
  viewCount : Option ℕ
  likeCount : Option ℕ
  commentCount : Option ℕ
  deriving DecidableEq, Repr

/-- The `contentDetails` dict of a provider item. -/
structure Details where
  duration : Option String
  deriving DecidableEq, Repr

/-- One item of the provider response; every key is optional. -/
structure Item where
  id : Option String
  snippet : Option Snippet
  statistics : Option Stats
  contentDetails : Option Details
  deriving DecidableEq, Repr

/-- The per-item warning message (line 241), with the exception text
truncated to 100 characters. -/
def item_warning (s : String) : String :=
  "동영상 정보를 가져오는 중 오류 발생: " ++ s.take 100 ++ "..."

/-- The body of the per-item loop (lines 213-242), wrapped in its own
`try`/`except`: `.error w` is an exception caught by the per-item handler
(sidebar warning `w`, item skipped), `.ok none` is the silent skip when a
required snippet key is missing, `.ok (some v)` is a constructed record. -/
def process_item (it : Item) : Except String (Option Video) :=
  match it.id with
  | none => .error (item_warning "id")
  | some video_id =>
    match it.snippet with
    | none => .error (item_warning "snippet")
    | some sn =>
      if sn.title.isSome && sn.channelTitle.isSome && sn.thumbnails.isSome then
        let stats := it.statistics.getD ⟨none, none, none⟩
        let details := it.contentDetails.getD ⟨none⟩
        match (sn.thumbnails.getD []).lookup "high" with
        | none => .error (item_warning "high")
        | some th =>
          .ok (some
            { id := video_id
              title := sn.title.getD ""
              channel := sn.channelTitle.getD ""
              thumbnail := th.url
              view_count := stats.viewCount.getD 0
              like_count := stats.likeCount.getD 0
              comment_count := stats.commentCount.getD 0
              duration := format_duration (details.duration.getD "PT0S")
              published_at := sn.publishedAt.getD ""
              url := "https://www.youtube.com/watch?v=" ++ video_id
              category_id := sn.categoryId.getD "" })
      else .ok none

/-- The whole item loop: collected videos and per-item warnings, in input
order. -/
def process_items : List Item → List Video × List String
  | [] => ([], [])
  | it :: rest =>
    let (vs, ws) := process_items rest
    match process_item it with
    | .ok (some v) => (v :: vs, ws)
    | .ok none => (vs, ws)
    | .error w => (vs, w :: ws)

/-- Outcome of the provider call inside the `try` block:
a response, an `HttpError` (whose `content` is the raw body, `some j` if it
parses as JSON value `j`, `none` if not valid JSON, and whose `str()` is
`strRepr`), or any other exception with the given `str()`. -/
inductive ProviderResult where
  | success (items : List Item)
  | httpError (content : Option JVal) (strRepr : String)
  | failure (strRepr : String)

/-- Sidebar message shown before the provider call. -/
def searching_msg : String := "YouTube에서 인기 동영상을 검색 중입니다..."

/-- Sidebar warning for an empty provider response (line 207). -/
def no_results_msg : String := "검색 결과가 없습니다. 다른 검색어를 시도해주세요."

/-- Sidebar error when no item yielded a record (line 245). -/
def load_failed_msg : String := "동영상을 불러오는 데 실패했습니다. 나중에 다시 시도해주세요."

/-- Extra sidebar error when the provider error mentions its quota (255). -/
def quota_msg : String := "API 할당량을 초과했습니다. 내일 다시 시도해주세요."

/-- `fetch_popular_videos`, as a function of the provider call's outcome.
Result: `.ok (videos, sidebar messages)`, or `.error e` when a Python
exception escapes to the caller. -/
def fetch_popular_videos (resp : ProviderResult) :
    Except PyExn (List Video × List String) :=
  match resp with
  | .success items =>
    if items.isEmpty then .ok ([], [searching_msg, no_results_msg])
    else
      let (videos, warns) := process_items items
      if videos.isEmpty then
        .ok ([], searching_msg :: warns ++ [load_failed_msg])
      else .ok (videos, searching_msg :: warns)
  | .httpError content strRepr =>
    match content with
    | none => .error .jsonDecodeError
    | some j =>
      match dict_get j "error" (.obj []) with
      | .error e => .error e
      | .ok error_details =>
        match dict_get error_details "message" (.str strRepr) with
        | .error e => .error e
        | .ok error_msg =>
          let base := [searching_msg, "YouTube API 오류: " ++ jStr error_msg]
          if substrB "quota".data (lower strRepr).data then
            .ok ([], base ++ [quota_msg])
          else
            .ok ([], base)
  | .failure strRepr =>
    .ok ([], [searching_msg, "예상치 못한 오류가 발생했습니다: " ++ strRepr.take 200])

/-! ### Concrete sample values used in closed instances -/

/-- A stand-in for `bcrypt.hashpw` in closed instances (the handlers never
inspect the hash they store). -/
def idHash (s : String) : String := s

/-- The protected administrator record of a sample store. -/
def recAdmin : UserRec :=
  { email := "admin@example.com", name := "Admin", password := "h0", role := "admin" }

/-- An ordinary user record of a sample store. -/
def recBob : UserRec :=
  { email := "bob@example.com", name := "Bob", password := "h1", role := "user" }

/-- A sample config whose store holds the admin and one ordinary user. -/
def sampleCfg : Config Unit :=
  { usernames := [("admin", recAdmin), ("bob", recBob)], rest := () }

/-- A sample video record. -/
def sampleVideo : Video :=
  { id := "v1", title := "Cat Video", channel := "Pets", thumbnail := "t",
    view_count := 500, like_count := 2, comment_count := 1,
    duration := "0:00", published_at := "2024-01-01T00:00:00Z",
    url := "https://www.youtube.com/watch?v=v1", category_id := "22" }

/-- A sample video record with more than ten million views. -/
def over10M : Video :=
  { id := "v2", title := "Hit", channel := "Big", thumbnail := "t",
    view_count := 20000000, like_count := 0, comment_count := 0,
    duration := "0:00", published_at := "2024-01-01T00:00:00Z",
    url := "https://www.youtube.com/watch?v=v2", category_id := "10" }

/-! ## Theorems -/

/-! ### Helper lemmas -/

theorem data_append (s t : String) : (s ++ t).data = s.data ++ t.data := by
  cases s; cases t; rfl

theorem getLast_append_man (s : String) :
    (s ++ "만").data.getLast? = some '만' := by
  rw [data_append]
  exact List.getLast?_concat _

theorem getLast_append_chun (s : String) :
    (s ++ "천").data.getLast? = some '천' := by
  rw [data_append]
  exact List.getLast?_concat _

theorem digitChar_ne_man : ∀ d, d < 10 → digitChar d ≠ '만' := by decide

theorem digitChar_ne_chun : ∀ d, d < 10 → digitChar d ≠ '천' := by decide

theorem digitsLE_head (n : ℕ) (h : n ≠ 0) :
    (digitsLE n).head? = some (digitChar (n % 10)) := by
  rw [digitsLE]
  simp [h]

theorem decimalString_getLast (n : ℕ) :
    ∃ d, d < 10 ∧ (decimalString n).data.getLast? = some (digitChar d) := by
  by_cases h : n = 0
  · subst h
    exact ⟨0, by decide, by decide⟩
  · refine ⟨n % 10, Nat.mod_lt _ (by decide), ?_⟩
    have hd : (decimalString n).data = (digitsLE n).reverse := by
      simp [decimalString, h]
    rw [hd, List.getLast?_reverse, digitsLE_head n h]

/-! ### Claim C1 -/

/-- C1 (code bug evidence): the spec (and the source's own comments) intend
`format_duration` to parse ISO-8601 durations, rendering "PT1H2M3S" as
"1:02:03"; but the regex `PT(?:H(\d+)H)?(?:M(\d+)M)?(?:S(\d+)S)?` demands
the unit letter on BOTH sides of each digit run, so no group ever matches a
standard ISO-8601 duration and every such well-formed input (here the
concrete "PT1H2M3S") collapses to the malformed-input result "0:00". -/
theorem format_duration_iso_bug :
    format_duration "PT1H2M3S" = "0:00" ∧ format_duration "PT1H2M3S" ≠ "1:02:03" := by
  decide

/-! ### Claim C2 -/

/-- C2 (counterexample): the default view-count range the main page builds
from the slider default is NOT the widest range the control can express:
the default is (0, 1000)·10⁴ = (0, 10000000) while the widest is
(0, 10000)·10⁴ = (0, 100000000). -/
theorem default_range_ne_widest :
    default_view_count_range ≠ widest_view_count_range := by decide

/-- C2 (amended): the default range is (0, 10⁷), a proper sub-range of the
widest representable (0, 10⁸); hence the default criteria DO impose a
view-count restriction: a video with 2·10⁷ views is filtered out under the
default range but kept under the widest range. -/
theorem default_range_restricts :
    default_view_count_range = (0, 10000000) ∧
    widest_view_count_range = (0, 100000000) ∧
    filter_videos [over10M] "" [] default_view_count_range = [] ∧
    filter_videos [over10M] "" [] widest_view_count_range = [over10M] := by
  decide

/-! ### Claim C9 -/

/-- C9: `format_number` returns the plain decimal string of `n` iff
`n < 1000`; for `1000 ≤ n < 10000` it returns the binary64 quotient
`n/1000` rendered to one decimal place followed by the "thousand" suffix
"천", and for `n ≥ 10000` the quotient `n/10000` rendered to one decimal
place followed by the "ten-thousand" suffix "만". -/
theorem format_number_spec (n : ℕ) :
    (format_number n = decimalString n ↔ n < 1000) ∧
    (1000 ≤ n → n < 10000 →
      format_number n = formatOneDec (pyDiv n 1000) ++ "천") ∧
    (10000 ≤ n → format_number n = formatOneDec (pyDiv n 10000) ++ "만") := by
  refine ⟨⟨?_, ?_⟩, ?_, ?_⟩
  · intro h
    by_contra hn
    push_neg at hn
    obtain ⟨d, hd, hlast⟩ := decimalString_getLast n
    rcases le_or_lt 10000 n with h4 | h4
    · rw [format_number, if_pos h4] at h
      have h2 := getLast_append_man (formatOneDec (pyDiv n 10000))
      rw [h, hlast] at h2
      exact digitChar_ne_man d hd (Option.some.inj h2)
    · rw [format_number, if_neg (by omega), if_pos hn] at h
      have h2 := getLast_append_chun (formatOneDec (pyDiv n 1000))
      rw [h, hlast] at h2
      exact digitChar_ne_chun d hd (Option.some.inj h2)
  · intro h
    rw [format_number, if_neg (by omega), if_neg (by omega)]
  · intro h1 h2
    rw [format_number, if_neg (by omega), if_pos h1]
  · intro h
    rw [format_number, if_pos h]

/-- C9 (witness): the two guarded conjuncts of `format_number_spec` and the
iff, instantiated at concrete inputs. -/
theorem format_number_spec_witness :
    format_number 15000 = formatOneDec (pyDiv 15000 10000) ++ "만" ∧
    format_number 1500 = formatOneDec (pyDiv 1500 1000) ++ "천" ∧
    format_number 500 = decimalString 500 :=
  ⟨(format_number_spec 15000).2.2 (by norm_num),
   (format_number_spec 1500).2.1 (by norm_num) (by norm_num),
   (format_number_spec 500).1.mpr (by norm_num)⟩

/-! ### Claims C3, C7, C8 -/

theorem substrB_iff (needle : List Char) (hay : List Char) :
    substrB needle hay = true ↔ needle <:+: hay := by
  induction hay with
  | nil => simp [substrB, List.isPrefixOf_iff_prefix]
  | cons c rest ih =>
    rw [List.infix_cons_iff]
    simp [substrB, List.isPrefixOf_iff_prefix, ih]

/-- C3: a record is in the output of `filter_videos` iff it is in the input
and the three criteria hold conjunctively: the lower-cased query is empty or
a substring of the lower-cased title or of the lower-cased channel name, the
category set is empty or contains the record's category id, and the view
count lies in the inclusive range.  In particular an empty query and an
empty category set impose no restriction. -/
theorem filter_videos_mem_iff (videos : List Video) (q : String)
    (cats : List String) (r : ℕ × ℕ) (v : Video) :
    v ∈ filter_videos videos q cats r ↔
      v ∈ videos ∧
      (q = "" ∨ (lower q).data <:+: (lower v.title).data ∨
        (lower q).data <:+: (lower v.channel).data) ∧
      (cats = [] ∨ v.category_id ∈ cats) ∧
      (r.1 ≤ v.view_count ∧ v.view_count ≤ r.2) := by
  unfold filter_videos
  by_cases hq : q = "" <;> by_cases hc : cats = [] <;>
    simp [hq, hc, List.mem_filter, substrB_iff] <;> tauto

/-- C7: the output of `filter_videos` is always a sublist of the input —
it keeps the input's relative order, contains no record that is not in the
input, and no duplicates beyond the input's. -/
theorem filter_videos_sublist (videos : List Video) (q : String)
    (cats : List String) (r : ℕ × ℕ) :
    (filter_videos videos q cats r).Sublist videos := by
  unfold filter_videos
  by_cases hq : q = "" <;> by_cases hc : cats = [] <;> simp [hq, hc]

/-- C8: filtering with criteria imposing no restriction — empty query,
empty category set, and a view-count range containing every record's view
count — returns the input list unchanged. -/
theorem filter_videos_identity (videos : List Video) (r : ℕ × ℕ)
    (h : ∀ v ∈ videos, r.1 ≤ v.view_count ∧ v.view_count ≤ r.2) :
    filter_videos videos "" [] r = videos := by
  unfold filter_videos
  simp only [ne_eq, not_true_eq_false, if_false, reduceIte]
  rw [List.filter_eq_self]
  intro v hv
  have := h v hv
  simp [this.1, this.2]

/-- C8 (witness): the identity filtering at a concrete list and range. -/
theorem filter_videos_identity_witness :
    filter_videos [sampleVideo, over10M] "" [] (0, 100000000) = [sampleVideo, over10M] :=
  filter_videos_identity [sampleVideo, over10M] (0, 100000000) (by decide)

/-! ### Claims C4, C5, C10 -/

/-- C4: invoking the delete handler on the reserved username "admin" always
fails with the protected-account error and returns the store untouched, for
every store state; the handler never consults the requesting user's role
(it is not even an input), so this holds regardless of that role. -/
theorem delete_user_admin_protected (α : Type) (cfg : Config α) :
    delete_user cfg "admin" = (cfg, .error .protectedAccount) := by
  simp [delete_user]

/-- C5 (counterexample): an add-user request whose username "admin" is
already a key of the store but whose name field is empty fails with the
empty-fields error, not with the duplicate-user error: the handler checks
field non-emptiness before uniqueness. -/
theorem add_user_duplicate_empty_field :
    (sampleCfg.usernames.lookup "admin").isSome = true ∧
    (add_user sampleCfg "admin" "" "x@example.com" "pw" "user" idHash).2
      = .error .emptyFields ∧
    AdminActionError.emptyFields ≠ AdminActionError.duplicateUser := by
  refine ⟨by decide, ?_, by decide⟩
  rfl

/-- C5 (amended): an add-user request with all four fields non-empty whose
username is already a key of the store fails with the duplicate-user error
and returns the store exactly as it was (no record added, none changed;
the source neither mutates the mapping nor rewrites the file then). -/
theorem add_user_duplicate_fails (α : Type) (cfg : Config α)
    (u nm em pw rl : String) (hash : String → String)
    (hu : u ≠ "") (hn : nm ≠ "") (he : em ≠ "") (hp : pw ≠ "")
    (hdup : (cfg.usernames.lookup u).isSome) :
    add_user cfg u nm em pw rl hash = (cfg, .error .duplicateUser) := by
  rcases hl : cfg.usernames.lookup u with _ | rec
  · rw [hl] at hdup
    simp at hdup
  · rw [add_user, if_pos ⟨hu, hn, he, hp⟩, hl]
    rfl

/-- C5 (witness): the amended statement at a concrete store and request. -/
theorem add_user_duplicate_fails_witness :
    add_user sampleCfg "bob" "Bobby" "b2@example.com" "pw2" "user" idHash
      = (sampleCfg, .error .duplicateUser) :=
  add_user_duplicate_fails Unit sampleCfg "bob" "Bobby" "b2@example.com" "pw2"
    "user" idHash (by decide) (by decide) (by decide) (by decide) (by decide)

theorem lookup_eraseP_ne (l : List (String × UserRec)) (u w : String)
    (hw : w ≠ u) :
    (l.eraseP (fun p => p.1 == u)).lookup w = l.lookup w := by
  induction l with
  | nil => rfl
  | cons p t ih =>
    rcases p with ⟨k, rec⟩
    by_cases hk : k = u
    · subst hk
      rw [List.eraseP_cons_of_pos (by simp)]
      rw [List.lookup_cons]
      have : (w == k) = false := by simp [hw]
      rw [this]
    · rw [List.eraseP_cons_of_neg (by simp [hk])]
      rw [List.lookup_cons, List.lookup_cons]
      cases hwk : w == k with
      | true => rfl
      | false => exact ih

theorem lookup_eraseP_self (l : List (String × UserRec)) (u : String)
    (hnd : (l.map Prod.fst).Nodup) :
    (l.eraseP (fun p => p.1 == u)).lookup u = none := by
  induction l with
  | nil => rfl
  | cons p t ih =>
    rcases p with ⟨k, rec⟩
    simp only [List.map_cons, List.nodup_cons] at hnd
    by_cases hk : k = u
    · subst hk
      rw [List.eraseP_cons_of_pos (by simp)]
      rw [List.lookup_eq_none_iff]
      intro q hq
      have : k ≠ q.1 := fun h => hnd.1 (h ▸ List.mem_map_of_mem Prod.fst hq)
      simp [this]
    · rw [List.eraseP_cons_of_neg (by simp [hk])]
      rw [List.lookup_cons]
      have : (u == k) = false := by simp [Ne.symm hk]
      rw [this]
      exact ih hnd.2

/-- C10: when deleting a username `u` other than "admin" succeeds (`u` is
present in the mapping), the handler persists a config in which exactly the
entry for `u` is removed: every other username still maps to its previous
record, `u` no longer maps to anything (the keys of a YAML mapping are
distinct, hence the `Nodup` hypothesis), and everything in the persisted
config outside the usernames mapping (`rest`) is unchanged. -/
theorem delete_user_frame (α : Type) (cfg : Config α) (u : String)
    (hu : u ≠ "admin") (hmem : (cfg.usernames.lookup u).isSome)
    (hnd : (cfg.usernames.map Prod.fst).Nodup) :
    (delete_user cfg u).2 = .ok () ∧
    (delete_user cfg u).1.rest = cfg.rest ∧
    (∀ w, w ≠ u →
      (delete_user cfg u).1.usernames.lookup w = cfg.usernames.lookup w) ∧
    (delete_user cfg u).1.usernames.lookup u = none := by
  rcases hl : cfg.usernames.lookup u with _ | rec
  · rw [hl] at hmem
    simp at hmem
  · rw [delete_user, if_pos hu, hl]
    exact ⟨rfl, rfl, fun w hw => lookup_eraseP_ne _ _ _ hw,
      lookup_eraseP_self _ _ hnd⟩

/-- C10 (witness): deleting "bob" from the sample store succeeds, keeps the
"admin" entry and the rest of the config, and removes the "bob" entry. -/
theorem delete_user_frame_witness :
    (delete_user sampleCfg "bob").2 = .ok () ∧
    (delete_user sampleCfg "bob").1.rest = sampleCfg.rest ∧
    (delete_user sampleCfg "bob").1.usernames.lookup "admin"
      = sampleCfg.usernames.lookup "admin" ∧
    (delete_user sampleCfg "bob").1.usernames.lookup "bob" = none := by
  obtain ⟨h1, h2, h3, h4⟩ :=
    delete_user_frame Unit sampleCfg "bob" (by decide) (by decide) (by decide)
  exact ⟨h1, h2, h3 "admin" (by decide), h4⟩

/-! ### Claim C6 -/

/-- C6 (counterexample): when the provider call fails with an API error
whose HTTP body is not valid JSON, `json.loads(e.content)` raises inside
the `except HttpError` handler; an exception raised inside an `except`
clause is not caught by the sibling `except Exception` clause, so it
escapes to the caller instead of yielding the empty list. -/
theorem fetch_api_error_raises :
    fetch_popular_videos (.httpError none "server returned an html body")
      = .error .jsonDecodeError := rfl

/-- C6 (amended): `fetch_popular_videos` returns the empty list and raises
nothing, reporting the reason only to the sidebar, when the provider
returns zero items, when the provider call fails with a transport or
unexpected error, or when it fails with an API error whose body parses to
a JSON object whose "error" member (when present) is itself an object;
an API error with a body that is not valid JSON escapes as an exception
(see the counterexample). -/
theorem fetch_failures_degrade (msg : String) (fields : List (String × JVal))
    (strRepr : String)
    (hgood : ∀ e, fields.lookup "error" = some e → ∃ gs, e = JVal.obj gs) :
    fetch_popular_videos (.success []) = .ok ([], [searching_msg, no_results_msg]) ∧
    fetch_popular_videos (.failure msg)
      = .ok ([], [searching_msg, "예상치 못한 오류가 발생했습니다: " ++ msg.take 200]) ∧
    ∃ msgs, fetch_popular_videos (.httpError (some (.obj fields)) strRepr)
      = .ok ([], msgs) ∧ msgs ≠ [] := by
  refine ⟨rfl, rfl, ?_⟩
  obtain ⟨gs, hgs⟩ :
      ∃ gs, (fields.lookup "error").getD (JVal.obj []) = JVal.obj gs := by
    rcases hl : fields.lookup "error" with _ | e
    · exact ⟨[], rfl⟩
    · simpa using hgood e hl
  by_cases hq : substrB "quota".data (lower strRepr).data = true
  · refine ⟨[searching_msg,
      "YouTube API 오류: " ++ jStr ((gs.lookup "message").getD (.str strRepr)),
      quota_msg], ?_, by simp⟩
    simp [fetch_popular_videos, dict_get, hgs, hq]
  · refine ⟨[searching_msg,
      "YouTube API 오류: " ++ jStr ((gs.lookup "message").getD (.str strRepr))], ?_,
      by simp⟩
    simp [fetch_popular_videos, dict_get, hgs, hq]

/-- C6 (witness): the amended statement at concrete inputs, including an
API error whose body is the usual Google error payload. -/
theorem fetch_failures_degrade_witness :
    fetch_popular_videos (.success []) = .ok ([], [searching_msg, no_results_msg]) ∧
    fetch_popular_videos (.failure "socket timeout")
      = .ok ([], [searching_msg,
          "예상치 못한 오류가 발생했습니다: " ++ ("socket timeout").take 200]) ∧
    ∃ msgs, fetch_popular_videos
        (.httpError
          (some (.obj [("error", .obj [("message", .str "quotaExceeded")])]))
          "HttpError 403: quota exceeded")
      = .ok ([], msgs) ∧ msgs ≠ [] := by
  refine ?_
  have h := fetch_failures_degrade "socket timeout"
    [("error", JVal.obj [("message", JVal.str "quotaExceeded")])]
    "HttpError 403: quota exceeded"
    (by
      intro e he
      refine ⟨[("message", JVal.str "quotaExceeded")], ?_⟩
      have h2 : some (JVal.obj [("message", JVal.str "quotaExceeded")]) = some e := he
      exact (Option.some.inj h2).symm)
  exact h

/-! ### Closed instances of the universally quantified claims -/

/-- C3 (witness): the membership characterization at a concrete list and
criteria. -/
theorem filter_videos_mem_iff_witness :
    sampleVideo ∈ filter_videos [sampleVideo, over10M] "cat" [] (0, 1000) ↔
      sampleVideo ∈ [sampleVideo, over10M] ∧
      ("cat" = "" ∨ (lower "cat").data <:+: (lower sampleVideo.title).data ∨
        (lower "cat").data <:+: (lower sampleVideo.channel).data) ∧
      (([] : List String) = [] ∨ sampleVideo.category_id ∈ ([] : List String)) ∧
      ((0, 1000).1 ≤ sampleVideo.view_count ∧ sampleVideo.view_count ≤ (0, 1000).2) :=
  filter_videos_mem_iff [sampleVideo, over10M] "cat" [] (0, 1000) sampleVideo

/-- C4 (witness): deleting "admin" from the concrete sample store. -/
theorem delete_user_admin_protected_witness :
    delete_user sampleCfg "admin" = (sampleCfg, .error .protectedAccount) :=
  delete_user_admin_protected Unit sampleCfg

/-- C7 (witness): the sublist property at a concrete list and criteria. -/
theorem filter_videos_sublist_witness :
    (filter_videos [sampleVideo, over10M] "cat" ["10", "22"] (0, 5000)).Sublist
      [sampleVideo, over10M] :=
  filter_videos_sublist [sampleVideo, over10M] "cat" ["10", "22"] (0, 5000)
